import Mathlib

/-!
A verification development for the DrawablePath component of the JUCE
library (source file: src/src/gui/graphics/drawables/juce_DrawablePath.cpp).

The component is embedded shallowly: the mutable C++ object becomes an
explicit state record (`DrawablePathState`), the logically-const cache
updates become state-passing functions, machine floats become rationals,
and the external collaborators that the source file only calls into
(the geometry path engine, the relative-coordinate service, the fill
styles, the rectangle type and the attributed value tree) are modelled
from the specification, each marked by a doc comment.
-/

namespace Juce

/-- Rational 2-D point, modelling the `Point<float>` coordinates used by
the source (floats are embedded as exact rationals). -/
abbrev Pt : Type := ℚ × ℚ

/-- Componentwise point addition. -/
def ptAdd (a b : Pt) : Pt := (a.1 + b.1, a.2 + b.2)

/-- Componentwise point subtraction. -/
def ptSub (a b : Pt) : Pt := (a.1 - b.1, a.2 - b.2)

/-- Scaling of a point by a rational factor. -/
def ptScale (k : ℚ) (a : Pt) : Pt := (k * a.1, k * a.2)

/-- Modelled from the spec: the named-coordinate resolution service
(`RelativeCoordinate::NamedCoordinateFinder`, not under src/).  A resolver
assigns a concrete value to every named anchor coordinate. -/
abbrev Resolver : Type := String → ℚ

/-- Modelled from the spec: one coordinate of a relative point
(`RelativeCoordinate`, not under src/) — either an absolute value or an
expression over a named anchor. -/
inductive RelCoord where
  | absolute (v : ℚ)
  | anchored (anchor : String) (offset : ℚ)
deriving DecidableEq

/-- Resolve a relative coordinate against a resolver. -/
def RelCoord.resolve (res : Resolver) : RelCoord → ℚ
  | .absolute v => v
  | .anchored a off => res a + off

/-- A coordinate is dynamic when it depends on a named anchor. -/
def RelCoord.isDynamic : RelCoord → Bool
  | .absolute _ => false
  | .anchored _ _ => true

/-- Modelled from the spec: a `RelativePoint` (not under src/) — a point
whose two coordinates may each be absolute or anchor-relative. -/
structure RelativePoint where
  x : RelCoord
  y : RelCoord
deriving DecidableEq

/-- Resolve a relative point to a concrete point. -/
def RelativePoint.resolve (p : RelativePoint) (res : Resolver) : Pt :=
  (p.x.resolve res, p.y.resolve res)

/-- A relative point is dynamic when either coordinate is. -/
def RelativePoint.isDynamic (p : RelativePoint) : Bool :=
  p.x.isDynamic || p.y.isDynamic

/-- The default-constructed `RelativePoint()`: both coordinates zero. -/
def RelativePoint.zero : RelativePoint := ⟨.absolute 0, .absolute 0⟩

/-- A constant relative point made from a concrete point (the implicit
`Point<float>` to `RelativePoint` conversion used by the source). -/
def RelativePoint.fromPt (p : Pt) : RelativePoint := ⟨.absolute p.1, .absolute p.2⟩

/-- Joint styles of `PathStrokeType`. -/
inductive JointStyle where
  | mitered
  | curved
  | beveled
deriving DecidableEq

/-- End-cap styles of `PathStrokeType`. -/
inductive EndCapStyle where
  | butt
  | square
  | rounded
deriving DecidableEq

/-- Modelled from the spec: the stroke descriptor (`PathStrokeType`, not
under src/) — thickness, joint style and end-cap style. -/
structure PathStrokeType where
  thickness : ℚ
  joint : JointStyle
  cap : EndCapStyle
deriving DecidableEq

/-- Modelled from the spec: a 2-D affine transform (`AffineTransform`, not
under src/); only the identity is needed by this file. -/
structure AffineTransform where
  m00 : ℚ
  m01 : ℚ
  m02 : ℚ
  m10 : ℚ
  m11 : ℚ
  m12 : ℚ
deriving DecidableEq

/-- The identity transform (`AffineTransform::identity`). -/
def AffineTransform.identity : AffineTransform := ⟨1, 0, 0, 0, 1, 0⟩

/-- Modelled from the spec: a fill style (`FillType`, not under src/) — a
paint description (identified abstractly) with an opacity; the component
only needs value equality and the full-transparency test. -/
structure FillType where
  paint : ℤ
  alpha : ℚ
deriving DecidableEq

/-- A fill is invisible when it is fully transparent. -/
def FillType.isInvisible (f : FillType) : Bool := f.alpha == 0

/-- The solid black fill (`Colours::black`) used by the constructors. -/
def FillType.black : FillType := ⟨0, 1⟩

/-- Modelled from the spec: a rectangle (`Rectangle<float>`, not under
src/) given by position and size. -/
structure Rect where
  x : ℚ
  y : ℚ
  w : ℚ
  h : ℚ
deriving DecidableEq

/-- The default-constructed rectangle. -/
def Rect.empty : Rect := ⟨0, 0, 0, 0⟩

/-- A rectangle is empty when its width or height is not positive. -/
def Rect.isEmptyR (r : Rect) : Bool := decide (r.w ≤ 0) || decide (r.h ≤ 0)

/-- Modelled from the spec: the union of two damage rectangles — the
smallest rectangle covering both areas; an empty rectangle contributes no
area, so its union with another rectangle is that other rectangle. -/
def Rect.getUnion (a b : Rect) : Rect :=
  if a.isEmptyR then b
  else if b.isEmptyR then a
  else
    let nx := min a.x b.x
    let ny := min a.y b.y
    ⟨nx, ny, max (a.x + a.w) (b.x + b.w) - nx, max (a.y + a.h) (b.y + b.h) - ny⟩

/-- One segment of a concrete geometry path. -/
inductive PathSeg where
  | move (p : Pt)
  | line (p : Pt)
  | quad (a b : Pt)
  | cubic (a b c : Pt)
  | close
deriving DecidableEq

/-- Modelled from the spec: a concrete geometry path (`Path`, not under
src/) — an ordered sequence of segments. -/
abbrev Path : Type := List PathSeg

/-- One command of a relative point path; cubic commands additionally
carry the opaque end-point mode tag. -/
inductive PathCmd where
  | move (p : RelativePoint)
  | line (p : RelativePoint)
  | quad (a b : RelativePoint)
  | cubic (a b c : RelativePoint) (mode : String)
  | close
deriving DecidableEq

/-- Whether any control point of a command is dynamic. -/
def PathCmd.isAnyDynamic : PathCmd → Bool
  | .move p => p.isDynamic
  | .line p => p.isDynamic
  | .quad a b => a.isDynamic || b.isDynamic
  | .cubic a b c _ => a.isDynamic || b.isDynamic || c.isDynamic
  | .close => false

/-- Resolve one command into a concrete path segment. -/
def PathCmd.toSeg (res : Resolver) : PathCmd → PathSeg
  | .move p => .move (p.resolve res)
  | .line p => .line (p.resolve res)
  | .quad a b => .quad (a.resolve res) (b.resolve res)
  | .cubic a b c _ => .cubic (a.resolve res) (b.resolve res) (c.resolve res)
  | .close => .close

/-- Modelled from the spec: a `RelativePointPath` (not under src/) — an
ordered sequence of path-construction commands with relative control
points, plus the fill-rule flag. -/
structure RelativePointPath where
  commands : List PathCmd
  usesNonZero : Bool
deriving DecidableEq

/-- `RelativePointPath::createPath`: regenerate a concrete path by
resolving every control point. -/
def RelativePointPath.createPath (rp : RelativePointPath) (res : Resolver) : Path :=
  rp.commands.map (PathCmd.toSeg res)

/-- `RelativePointPath::containsAnyDynamicPoints`. -/
def RelativePointPath.containsAnyDynamicPoints (rp : RelativePointPath) : Bool :=
  rp.commands.any PathCmd.isAnyDynamic

/-- One concrete segment viewed as an all-constant command (used when a
relative point path is built from a concrete path). -/
def PathSeg.toCmd : PathSeg → PathCmd
  | .move q => .move (RelativePoint.fromPt q)
  | .line q => .line (RelativePoint.fromPt q)
  | .quad a b => .quad (RelativePoint.fromPt a) (RelativePoint.fromPt b)
  | .cubic a b c => .cubic (RelativePoint.fromPt a) (RelativePoint.fromPt b)
                           (RelativePoint.fromPt c) ""
  | .close => .close

/-- `RelativePointPath (const Path&)`: a relative point path built from a
concrete path, treating every point as a constant. -/
def RelativePointPath.fromPath (p : Path) : RelativePointPath :=
  ⟨p.map PathSeg.toCmd, true⟩

/-- Modelled from the spec: an attribute value of the attributed tree
(`var`, not under src/).  A stringified relative-point expression is kept
as the point itself, and a fill description as the fill value, since the
string formats of those collaborators are outside this file. -/
inductive Var where
  | void
  | str (s : String)
  | num (q : ℚ)
  | boolv (b : Bool)
  | relPt (p : RelativePoint)
  | fillv (f : FillType)
deriving DecidableEq

/-- Modelled from the spec: the attributed tree (`ValueTree`, not under
src/) — a typed node with key/value attributes and ordered children. -/
inductive ValueTree where
  | mk (typeName : String) (props : List (String × Var)) (children : List ValueTree)

/-- The node's type tag. -/
def ValueTree.typeName : ValueTree → String
  | .mk t _ _ => t

/-- The node's attribute list. -/
def ValueTree.props : ValueTree → List (String × Var)
  | .mk _ p _ => p

/-- The node's children. -/
def ValueTree.children : ValueTree → List ValueTree
  | .mk _ _ c => c

/-- The invalid tree (returned where the C++ API yields `ValueTree::invalid`). -/
def ValueTree.invalid : ValueTree := .mk "" [] []

/-- Read an attribute; a missing attribute reads as the void value. -/
def ValueTree.getProp (t : ValueTree) (k : String) : Var :=
  (((t.props.find? (fun kv => kv.1 == k)).map Prod.snd).getD Var.void)

/-- Set an attribute, replacing an existing binding of the same key. -/
def ValueTree.setProp : ValueTree → String → Var → ValueTree
  | .mk ty ps cs, k, v =>
    if ps.any (fun kv => kv.1 == k) then
      .mk ty (ps.map (fun kv => if kv.1 == k then (k, v) else kv)) cs
    else .mk ty (ps ++ [(k, v)]) cs

/-- The first child with the given type, or the invalid tree. -/
def ValueTree.getChildWithName (t : ValueTree) (n : String) : ValueTree :=
  ((t.children.find? (fun c => c.typeName == n)).getD ValueTree.invalid)

/-- Apply an update to the child with the given type, creating it first
when missing (`getOrCreateChildWithName` followed by in-place edits). -/
def ValueTree.withChild : ValueTree → String → (ValueTree → ValueTree) → ValueTree
  | .mk ty ps cs, n, f =>
    if cs.any (fun c => c.typeName == n) then
      .mk ty (ps) (cs.map (fun c => if c.typeName == n then f c else c))
    else .mk ty ps (cs ++ [f (.mk n [] [])])

/-- Read an attribute as a string (`var::toString` of a missing attribute
is the empty string). -/
def treeGetStr (t : ValueTree) (k : String) : String :=
  match t.getProp k with
  | .str s => s
  | _ => ""

/-- Read an attribute as a number; missing reads as zero. -/
def treeGetNum (t : ValueTree) (k : String) : ℚ :=
  match t.getProp k with
  | .num q => q
  | _ => 0

/-- Read an attribute as a boolean; missing reads as false. -/
def treeGetBool (t : ValueTree) (k : String) : Bool :=
  match t.getProp k with
  | .boolv b => b
  | _ => false

/-- Read an attribute as a stringified relative point; anything else
parses to the zero point. -/
def treeGetRelPt (t : ValueTree) (k : String) : RelativePoint :=
  match t.getProp k with
  | .relPt p => p
  | _ => RelativePoint.zero

/-- Modelled from the spec: `readFillType` (in juce_Drawable.cpp, not
under src/) — decode a fill style from a fill sub-node. -/
def readFillType (t : ValueTree) : FillType :=
  match t.getProp "fill" with
  | .fillv f => f
  | _ => FillType.black

/-- Modelled from the spec: `writeFillType` — encode a fill style into a
fill sub-node. -/
def writeFillType (t : ValueTree) (f : FillType) : ValueTree :=
  t.setProp "fill" (.fillv f)

/-- `ValueTreeWrapper::getMainFill`: decode the main fill from the
`Fill` child. -/
def getMainFillT (t : ValueTree) : FillType :=
  readFillType (t.getChildWithName "Fill")

/-- `ValueTreeWrapper::getStrokeFill`: decode the stroke fill from the
`Stroke` child. -/
def getStrokeFillT (t : ValueTree) : FillType :=
  readFillType (t.getChildWithName "Stroke")

/-- `ValueTreeWrapper::setMainFill`. -/
def setMainFillT (t : ValueTree) (f : FillType) : ValueTree :=
  t.withChild "Fill" (fun c => writeFillType c f)

/-- `ValueTreeWrapper::setStrokeFill`. -/
def setStrokeFillT (t : ValueTree) (f : FillType) : ValueTree :=
  t.withChild "Stroke" (fun c => writeFillType c f)

/-- `ValueTreeWrapper::getStrokeType` (source lines 257-269): decode the
stroke descriptor; the joint string `"curved"` maps to curved, `"bevel"`
to beveled and anything else to mitered; the cap string `"square"` maps
to square, `"round"` to rounded and anything else to butt. -/
def getStrokeTypeFT (t : ValueTree) : PathStrokeType :=
  let jointStyleString := treeGetStr t "jointStyle"
  let capStyleString := treeGetStr t "capStyle"
  { thickness := treeGetNum t "strokeWidth"
    joint := if jointStyleString == "curved" then .curved
             else if jointStyleString == "bevel" then .beveled
             else .mitered
    cap := if capStyleString == "square" then .square
           else if capStyleString == "round" then .rounded
           else .butt }

/-- `ValueTreeWrapper::setStrokeType` (source lines 271-278). -/
def setStrokeTypeT (t : ValueTree) (st : PathStrokeType) : ValueTree :=
  let t1 := t.setProp "strokeWidth" (.num st.thickness)
  let t2 := t1.setProp "jointStyle"
      (.str (match st.joint with
             | .mitered => "miter"
             | .curved => "curved"
             | .beveled => "bevel"))
  t2.setProp "capStyle"
      (.str (match st.cap with
             | .butt => "butt"
             | .square => "square"
             | .rounded => "round"))

/-- Encode one command as a segment child node
(`RelativePointPath::writeTo` element encoding, modelled from the spec:
each command becomes a child whose type tag is the command kind, with
control points `p1`..`p3` and, for cubic commands, the `mode` tag). -/
def PathCmd.toTree : PathCmd → ValueTree
  | .move p => .mk "Move" [("p1", .relPt p)] []
  | .line p => .mk "Line" [("p1", .relPt p)] []
  | .quad a b => .mk "Quad" [("p1", .relPt a), ("p2", .relPt b)] []
  | .cubic a b c m =>
      .mk "Cubic" [("p1", .relPt a), ("p2", .relPt b), ("p3", .relPt c), ("mode", .str m)] []
  | .close => .mk "Close" [] []

/-- Decode one segment child node back into a command; an unknown type
tag decodes to nothing (treated as a no-op segment per the spec's
error-handling rules). -/
def ValueTree.toCmd (t : ValueTree) : Option PathCmd :=
  if t.typeName == "Move" then some (.move (treeGetRelPt t "p1"))
  else if t.typeName == "Line" then some (.line (treeGetRelPt t "p1"))
  else if t.typeName == "Quad" then some (.quad (treeGetRelPt t "p1") (treeGetRelPt t "p2"))
  else if t.typeName == "Cubic" then
    some (.cubic (treeGetRelPt t "p1") (treeGetRelPt t "p2") (treeGetRelPt t "p3")
                 (treeGetStr t "mode"))
  else if t.typeName == "Close" then some .close
  else none

/-- Modelled from the spec: `RelativePointPath::writeTo` — store the
fill-rule flag and delegate segment encoding into the `Path` child. -/
def RelativePointPath.writeTo (rp : RelativePointPath) (t : ValueTree) : ValueTree :=
  let t1 := t.setProp "nonZeroWinding" (.boolv rp.usesNonZero)
  t1.withChild "Path" (fun c => .mk "Path" c.props (rp.commands.map PathCmd.toTree))

/-- Modelled from the spec: `RelativePointPath (const ValueTree&)` —
decode the commands from the `Path` child and the fill-rule flag. -/
def RelativePointPath.fromTree (t : ValueTree) : RelativePointPath :=
  ⟨(t.getChildWithName "Path").children.filterMap ValueTree.toCmd,
   treeGetBool t "nonZeroWinding"⟩

/-- `ValueTreeWrapperBase::getID` (modelled from the spec: the node id
attribute). -/
def treeGetID (t : ValueTree) : String := treeGetStr t "id"

/-- `ValueTreeWrapperBase::setID`. -/
def treeSetID (t : ValueTree) (s : String) : ValueTree := t.setProp "id" (.str s)

/-- Modelled from the spec: the external geometry-path collaborator —
stroke-outline generation given (descriptor, path, transform, flattening
tolerance), bounds computation and point containment. -/
structure GeoOps where
  strokeGen : PathStrokeType → Path → AffineTransform → ℚ → Path
  boundsOf : Path → Rect
  containsPt : Path → ℚ → ℚ → Bool

/-- The state of a `DrawablePath` object (source data model): fills,
stroke descriptor, cached concrete path, cached stroke outline, the
optionally owned relative path, the two dirty flags, and the component
name. -/
structure DrawablePathState where
  name : String
  mainFill : FillType
  strokeFill : FillType
  strokeType : PathStrokeType
  path : Path
  stroke : Path
  relativePath : Option RelativePointPath
  pathNeedsUpdating : Bool
  strokeNeedsUpdating : Bool
deriving DecidableEq

/-- The default constructor `DrawablePath::DrawablePath()` (source lines
36-43): black fills, zero-thickness stroke, both dirty flags set. -/
def DrawablePathState.init : DrawablePathState :=
  { name := ""
    mainFill := FillType.black
    strokeFill := FillType.black
    strokeType := ⟨0, .mitered, .butt⟩
    path := []
    stroke := []
    relativePath := none
    pathNeedsUpdating := true
    strokeNeedsUpdating := true }

/-- `DrawablePath::setPath` (source lines 63-67). -/
def setPath (s : DrawablePathState) (newPath : Path) : DrawablePathState :=
  { s with path := newPath, strokeNeedsUpdating := true }

/-- `DrawablePath::setFill` (source lines 69-72). -/
def setFill (s : DrawablePathState) (newFill : FillType) : DrawablePathState :=
  { s with mainFill := newFill }

/-- `DrawablePath::setStrokeFill` (source lines 74-77). -/
def setStrokeFill (s : DrawablePathState) (newFill : FillType) : DrawablePathState :=
  { s with strokeFill := newFill }

/-- `DrawablePath::setStrokeType` (source lines 79-83). -/
def setStrokeType (s : DrawablePathState) (st : PathStrokeType) : DrawablePathState :=
  { s with strokeType := st, strokeNeedsUpdating := true }

/-- `DrawablePath::setStrokeThickness` (source lines 85-88): replaces the
descriptor keeping the current joint and cap styles. -/
def setStrokeThickness (s : DrawablePathState) (newThickness : ℚ) : DrawablePathState :=
  setStrokeType s ⟨newThickness, s.strokeType.joint, s.strokeType.cap⟩

/-- `DrawablePath::invalidatePoints` (source lines 133-137). -/
def invalidatePoints (s : DrawablePathState) : DrawablePathState :=
  { s with pathNeedsUpdating := true, strokeNeedsUpdating := true }

/-- `DrawablePath::updatePath` (source lines 90-103): no-op unless the
path is dirty; clears the flag, and when a relative path is owned,
regenerates the concrete path against the resolver and marks the stroke
dirty. -/
def updatePath (s : DrawablePathState) (res : Resolver) : DrawablePathState :=
  if s.pathNeedsUpdating then
    match s.relativePath with
    | some rp =>
        { s with pathNeedsUpdating := false
                 path := rp.createPath res
                 strokeNeedsUpdating := true }
    | none => { s with pathNeedsUpdating := false }
  else s

/-- `DrawablePath::updateStroke` (source lines 105-114), instrumented
with the number of stroke-outline regenerations performed (0 or 1): no-op
unless the stroke is dirty; clears the flag first, then runs
`updatePath`, then regenerates the stroke outline from the stroke
descriptor applied to the path with the identity transform and a
flattening tolerance of 4 units. -/
def updateStrokeN (g : GeoOps) (s : DrawablePathState) (res : Resolver) :
    DrawablePathState × Nat :=
  if s.strokeNeedsUpdating then
    let s1 := updatePath { s with strokeNeedsUpdating := false } res
    ({ s1 with stroke := g.strokeGen s1.strokeType s1.path AffineTransform.identity 4 }, 1)
  else (s, 0)

/-- `DrawablePath::updateStroke` without the instrumentation. -/
def updateStroke (g : GeoOps) (s : DrawablePathState) (res : Resolver) : DrawablePathState :=
  (updateStrokeN g s res).1

/-- `DrawablePath::getPath` (source lines 116-120): the returned path and
the updated cache state. -/
def getPathQ (s : DrawablePathState) (res : Resolver) : Path × DrawablePathState :=
  let s1 := updatePath s res
  (s1.path, s1)

/-- `DrawablePath::getStrokePath` (source lines 122-126): the returned
stroke outline and the updated cache state. -/
def getStrokePathQ (g : GeoOps) (s : DrawablePathState) (res : Resolver) :
    Path × DrawablePathState :=
  let s1 := updateStroke g s res
  (s1.stroke, s1)

/-- `DrawablePath::getStrokePath` with the regeneration count of the
underlying `updateStroke` call. -/
def getStrokePathN (g : GeoOps) (s : DrawablePathState) (res : Resolver) :
    Path × DrawablePathState × Nat :=
  let r := updateStrokeN g s res
  (r.1.stroke, r.1, r.2)

/-- `DrawablePath::isStrokeVisible` (source lines 128-131). -/
def isStrokeVisible (s : DrawablePathState) : Bool :=
  decide (0 < s.strokeType.thickness) && !s.strokeFill.isInvisible

/-- `DrawablePath::getBounds` (source lines 164-170): stroke-outline
bounds when the stroke is visible, else fill-outline bounds. -/
def getBounds (g : GeoOps) (s : DrawablePathState) (res : Resolver) :
    Rect × DrawablePathState :=
  if isStrokeVisible s then
    let r := getStrokePathQ g s res
    (g.boundsOf r.1, r.2)
  else
    let r := getPathQ s res
    (g.boundsOf r.1, r.2)

/-- `DrawablePath::hitTest` (source lines 172-176): inside the fill
outline, or, when the stroke is visible, inside the stroke outline. -/
def hitTest (g : GeoOps) (s : DrawablePathState) (res : Resolver) (x y : ℚ) :
    Bool × DrawablePathState :=
  let r := getPathQ s res
  if g.containsPt r.1 x y then (true, r.2)
  else if isStrokeVisible r.2 then
    let r2 := getStrokePathQ g r.2 res
    (g.containsPt r2.1 x y, r2.2)
  else (false, r.2)

/-- `DrawablePath::refreshFromValueTree` (source lines 435-483): decode
the name, the fills, the stroke descriptor and a fresh relative point
path; resolve it once; discard it when it has no dynamic points; when the
stroke descriptor or the resolved path changed, capture the old bounds,
swap in the new path and descriptor and mark the stroke dirty; adopt the
relative path; and when anything visually changed, union the damage with
the new bounds. -/
def refreshFromValueTree (g : GeoOps) (s : DrawablePathState) (t : ValueTree)
    (res : Resolver) : Rect × DrawablePathState :=
  let s0 := { s with name := treeGetID t }
  let newFill := getMainFillT t
  let s1 := if s0.mainFill = newFill then s0 else { s0 with mainFill := newFill }
  let newStrokeFill := getStrokeFillT t
  let s2 := if s1.strokeFill = newStrokeFill then s1
            else { s1 with strokeFill := newStrokeFill }
  let newStroke := getStrokeTypeFT t
  let newRel := RelativePointPath.fromTree t
  let newPath := newRel.createPath res
  let damage := if s2.strokeType = newStroke ∧ s2.path = newPath then Rect.empty
                else (getBounds g s2 res).1
  let s3 := if s2.strokeType = newStroke ∧ s2.path = newPath then s2
            else { (getBounds g s2 res).2 with
                     path := newPath
                     strokeNeedsUpdating := true
                     strokeType := newStroke }
  let s4 := { s3 with relativePath :=
                if newRel.containsAnyDynamicPoints then some newRel else none }
  if s0.mainFill = newFill ∧ s0.strokeFill = newStrokeFill ∧
     (s2.strokeType = newStroke ∧ s2.path = newPath) then
    (damage, s4)
  else
    (damage.getUnion (getBounds g s4 res).1, (getBounds g s4 res).2)

/-- `DrawablePath::createValueTree` (source lines 485-506): build a fresh
`Path` node, set the id, both fills and the stroke descriptor, then
delegate segment encoding to the owned relative path, or to a throwaway
relative path built from the concrete path. -/
def createValueTree (s : DrawablePathState) : ValueTree :=
  let t0 : ValueTree := .mk "Path" [] []
  let t1 := treeSetID t0 s.name
  let t2 := setMainFillT t1 s.mainFill
  let t3 := setStrokeFillT t2 s.strokeFill
  let t4 := setStrokeTypeT t3 s.strokeType
  match s.relativePath with
  | some rp => rp.writeTo t4
  | none => (RelativePointPath.fromPath s.path).writeTo t4

/-- `Element::getNumControlPoints` (source lines 317-324). -/
def getNumControlPoints (e : ValueTree) : Nat :=
  if e.typeName == "Move" || e.typeName == "Line" then 1
  else if e.typeName == "Quad" then 2
  else if e.typeName == "Cubic" then 3
  else 0

/-- `Element::getControlPoint` (source lines 326-330): control point 0,
1, 2 read from `p1`, `p2`, `p3`. -/
def getControlPoint (e : ValueTree) (index : Nat) : RelativePoint :=
  treeGetRelPt e (if index == 0 then "p1" else if index == 1 then "p2" else "p3")

/-- `Element::getEndPoint` (source lines 356-365): the last control point
per kind; for a close node (and any unknown node in release builds) the
default zero point. -/
def getEndPoint (e : ValueTree) : RelativePoint :=
  if e.typeName == "Move" || e.typeName == "Line" then getControlPoint e 0
  else if e.typeName == "Quad" then getControlPoint e 1
  else if e.typeName == "Cubic" then getControlPoint e 2
  else RelativePoint.zero

/-- `Element::getStartPoint` (source lines 344-354) on an element with an
explicit previous sibling: a move node's own first control point,
otherwise the previous element's end point. -/
def getStartPointOf (prev e : ValueTree) : RelativePoint :=
  if e.typeName == "Move" then getControlPoint e 0
  else getEndPoint prev

/-- `Element::getPreviousElement` (source lines 312-315): the sibling at
offset -1, or the invalid tree for the first element. -/
def getPreviousElement (siblings : List ValueTree) (i : Nat) : ValueTree :=
  if i = 0 then ValueTree.invalid else siblings.getD (i - 1) ValueTree.invalid

/-- `Element::getStartPoint` of the element at index `i` in its sibling
list. -/
def getStartPoint (siblings : List ValueTree) (i : Nat) : RelativePoint :=
  getStartPointOf (getPreviousElement siblings i) (siblings.getD i ValueTree.invalid)

/-- `Element::convertToLine` (source lines 378-389): quad and cubic nodes
become a line keeping the end point; other nodes are unchanged. -/
def convertToLine (e : ValueTree) : ValueTree :=
  if e.typeName == "Quad" || e.typeName == "Cubic" then
    .mk "Line" [("p1", .relPt (getEndPoint e))] []
  else e

/-- `Element::convertToCubic` (source lines 391-410): line and quad nodes
become a cubic whose interior control points are placed at 30% and 70%
interpolation between the resolved start and end points, and whose last
control point is the original end point; other nodes are unchanged. -/
def convertToCubic (res : Resolver) (prev e : ValueTree) : ValueTree :=
  if e.typeName == "Line" || e.typeName == "Quad" then
    let start := getStartPointOf prev e
    let endP := getEndPoint e
    let startResolved := start.resolve res
    let endResolved := endP.resolve res
    .mk "Cubic"
      [("p1", .relPt (RelativePoint.fromPt
          (ptAdd startResolved (ptScale (3/10) (ptSub endResolved startResolved))))),
       ("p2", .relPt (RelativePoint.fromPt
          (ptAdd startResolved (ptScale (7/10) (ptSub endResolved startResolved))))),
       ("p3", .relPt endP)] []
  else e

/-- `Element::convertToPathBreak` (source lines 412-423): any non-move
node becomes a move node at its end point. -/
def convertToPathBreak (e : ValueTree) : ValueTree :=
  if e.typeName == "Move" then e
  else .mk "Move" [("p1", .relPt (getEndPoint e))] []

/-- `Element::insertPoint` (source lines 425-427): the body of the source
method is empty, so the element and its sibling list are returned
unchanged. -/
def insertPoint (siblings : List ValueTree) (_ : Nat) (_ : ℚ) (_ : Resolver) :
    List ValueTree :=
  siblings

/-- `Element::removePoint` (source lines 429-432): remove the element
from its sibling list. -/
def removePoint (siblings : List ValueTree) (i : Nat) : List ValueTree :=
  siblings.eraseIdx i

/-- A trivial geometry collaborator used for concrete evaluations. -/
def trivGeo : GeoOps := ⟨fun _ p _ _ => p, fun _ => Rect.empty, fun _ _ _ => false⟩

/-- A geometry collaborator with distinguishable bounds and containment,
used for concrete evaluations. -/
def boxGeo : GeoOps :=
  ⟨fun _ p _ _ => PathSeg.close :: p,
   fun p => ⟨0, 0, (p.length : ℚ), 1⟩,
   fun p x _ => decide (x < (p.length : ℚ))⟩

/-- The resolver assigning zero to every anchor. -/
def trivRes : Resolver := fun _ => 0

/-- A dynamic one-command relative path. -/
def dynRP : RelativePointPath := ⟨[.move ⟨.anchored "a" 0, .absolute 0⟩], true⟩

/-- A fresh drawable path that has adopted the dynamic path `dynRP`. -/
def dynState : DrawablePathState :=
  { DrawablePathState.init with relativePath := some dynRP }

/-- A fresh drawable path whose stroke is visible (positive thickness,
opaque stroke fill). -/
def visState : DrawablePathState :=
  { DrawablePathState.init with strokeType := ⟨2, .mitered, .butt⟩ }

/-- A static drawable path with a concrete two-segment geometry, used for
concrete evaluations. -/
def rtState : DrawablePathState :=
  { DrawablePathState.init with
      path := [.move (1, 2), .line (3, 4)]
      strokeType := ⟨2, .curved, .square⟩
      pathNeedsUpdating := false
      strokeNeedsUpdating := false }

/-- A tree that differs from `rtState` only in the main fill value. -/
def fillOnlyTree : ValueTree := createValueTree { rtState with mainFill := ⟨7, 1⟩ }

/-- A concrete Move element node. -/
def prevE : ValueTree := .mk "Move" [("p1", .relPt ⟨.absolute 0, .absolute 0⟩)] []

/-- A concrete Line element node. -/
def lineE : ValueTree := .mk "Line" [("p1", .relPt ⟨.absolute 10, .absolute 0⟩)] []

/-- A concrete Quad element node. -/
def quadE : ValueTree :=
  .mk "Quad" [("p1", .relPt ⟨.absolute 4, .absolute 4⟩),
              ("p2", .relPt ⟨.absolute 8, .absolute 2⟩)] []

/-- A concrete segment list: Move, Line, Close. -/
def elemList : List ValueTree := [prevE, lineE, .mk "Close" [] []]

theorem updatePath_pnu (s : DrawablePathState) (res : Resolver) :
    (updatePath s res).pathNeedsUpdating = false := by
  unfold updatePath
  split
  · split <;> rfl
  · simp_all

theorem updatePath_preserves (s : DrawablePathState) (res : Resolver) :
    (updatePath s res).mainFill = s.mainFill ∧
    (updatePath s res).strokeFill = s.strokeFill ∧
    (updatePath s res).strokeType = s.strokeType ∧
    (updatePath s res).stroke = s.stroke ∧
    (updatePath s res).relativePath = s.relativePath ∧
    (updatePath s res).name = s.name := by
  unfold updatePath
  split
  · split <;> simp_all
  · simp

theorem updatePath_path_of_relNone (s : DrawablePathState) (res : Resolver)
    (h : s.relativePath = none) : (updatePath s res).path = s.path := by
  unfold updatePath
  split
  · rw [h]
  · rfl

theorem updatePath_idem (s : DrawablePathState) (res : Resolver) :
    updatePath (updatePath s res) res = updatePath s res := by
  rw [updatePath.eq_def]
  rw [updatePath_pnu]
  simp

theorem updateStroke_preserves (g : GeoOps) (s : DrawablePathState) (res : Resolver) :
    (updateStroke g s res).mainFill = s.mainFill ∧
    (updateStroke g s res).strokeFill = s.strokeFill ∧
    (updateStroke g s res).strokeType = s.strokeType ∧
    (updateStroke g s res).relativePath = s.relativePath ∧
    (updateStroke g s res).name = s.name := by
  unfold updateStroke updateStrokeN
  split
  · have h := updatePath_preserves { s with strokeNeedsUpdating := false } res
    simp_all
  · simp

theorem updateStroke_path_of_relNone (g : GeoOps) (s : DrawablePathState) (res : Resolver)
    (h : s.relativePath = none) : (updateStroke g s res).path = s.path := by
  unfold updateStroke updateStrokeN
  split
  · have h2 : ({ s with strokeNeedsUpdating := false } :
        DrawablePathState).relativePath = none := h
    have h3 := updatePath_path_of_relNone { s with strokeNeedsUpdating := false } res h2
    simp_all
  · rfl

theorem updateStroke_stroke_idem (g : GeoOps) (s : DrawablePathState) (res : Resolver) :
    (updateStroke g (updateStroke g s res) res).stroke = (updateStroke g s res).stroke := by
  obtain ⟨nm, mf, sf, st, p, sk, rp, pnu, snu⟩ := s
  cases snu <;> cases pnu <;> cases rp <;> rfl

theorem isStrokeVisible_updatePath (s : DrawablePathState) (res : Resolver) :
    isStrokeVisible (updatePath s res) = isStrokeVisible s := by
  have h := updatePath_preserves s res
  unfold isStrokeVisible
  rw [h.2.2.1, h.2.1]

theorem isStrokeVisible_updateStroke (g : GeoOps) (s : DrawablePathState) (res : Resolver) :
    isStrokeVisible (updateStroke g s res) = isStrokeVisible s := by
  have h := updateStroke_preserves g s res
  unfold isStrokeVisible
  rw [h.2.2.1, h.2.1]

theorem getBounds_snd_relativePath (g : GeoOps) (s : DrawablePathState) (res : Resolver) :
    ((getBounds g s res).2).relativePath = s.relativePath := by
  unfold getBounds getStrokePathQ getPathQ
  split
  · exact (updateStroke_preserves g s res).2.2.2.1
  · exact (updatePath_preserves s res).2.2.2.2.1

theorem getBounds_snd_path_of_relNone (g : GeoOps) (s : DrawablePathState) (res : Resolver)
    (h : s.relativePath = none) : ((getBounds g s res).2).path = s.path := by
  unfold getBounds getStrokePathQ getPathQ
  split
  · exact updateStroke_path_of_relNone g s res h
  · exact updatePath_path_of_relNone s res h

theorem getBounds_fst_stable (g : GeoOps) (s : DrawablePathState) (res : Resolver) :
    (getBounds g (getBounds g s res).2 res).1 = (getBounds g s res).1 := by
  by_cases hv : isStrokeVisible s = true
  · have h1 : getBounds g s res =
        (g.boundsOf (updateStroke g s res).stroke, updateStroke g s res) := by
      unfold getBounds getStrokePathQ
      rw [if_pos hv]
    have hv2 : isStrokeVisible (updateStroke g s res) = true := by
      rw [isStrokeVisible_updateStroke]; exact hv
    rw [h1]
    show (getBounds g (updateStroke g s res) res).1 = g.boundsOf (updateStroke g s res).stroke
    unfold getBounds getStrokePathQ
    rw [if_pos hv2]
    exact congrArg g.boundsOf (updateStroke_stroke_idem g s res)
  · have h1 : getBounds g s res = (g.boundsOf (updatePath s res).path, updatePath s res) := by
      unfold getBounds getPathQ
      rw [if_neg hv]
    have hv2 : ¬ isStrokeVisible (updatePath s res) = true := by
      rw [isStrokeVisible_updatePath]; exact hv
    rw [h1]
    show (getBounds g (updatePath s res) res).1 = g.boundsOf (updatePath s res).path
    unfold getBounds getPathQ
    rw [if_neg hv2]
    exact congrArg g.boundsOf (congrArg DrawablePathState.path (updatePath_idem s res))

theorem rect_empty_getUnion (b : Rect) : Rect.empty.getUnion b = b := by
  unfold Rect.getUnion
  have h : Rect.empty.isEmptyR = true := by decide
  rw [h]
  simp

/-- C9: decoding the stroke descriptor from a tree maps the jointStyle
string "curved" to the curved joint style, "bevel" to beveled, and every
other string to mitered; the capStyle string "square" maps to square,
"round" to rounded, and every other string to butt; an absent attribute
also takes the default, and an unknown style string is never an error. -/
theorem strokeStyle_decode_defaults (js cs : String) (w : ℚ) :
    getStrokeTypeFT (.mk "Path"
        [("strokeWidth", .num w), ("jointStyle", .str js), ("capStyle", .str cs)] []) =
      { thickness := w
        joint := if js = "curved" then .curved
                 else if js = "bevel" then .beveled else .mitered
        cap := if cs = "square" then .square
               else if cs = "round" then .rounded else .butt } ∧
    getStrokeTypeFT (.mk "Path" [] []) =
      { thickness := 0, joint := .mitered, cap := .butt } := by
  constructor
  · by_cases h1 : js = "curved" <;> by_cases h2 : js = "bevel" <;>
    by_cases h3 : cs = "square" <;> by_cases h4 : cs = "round" <;>
      simp [getStrokeTypeFT, treeGetStr, treeGetNum, ValueTree.getProp, ValueTree.props,
            h1, h2, h3, h4]
  · rfl

/-- C10: `insertPoint` performs no mutation whatsoever: the sibling list
(and so the element, its parent and all siblings) is returned unchanged
for every position, resolver and index. -/
theorem insertPoint_noop (siblings : List ValueTree) (i : Nat) (position : ℚ)
    (res : Resolver) :
    insertPoint siblings i position res = siblings ∧
    (insertPoint siblings i position res).getD i ValueTree.invalid =
      siblings.getD i ValueTree.invalid :=
  ⟨rfl, rfl⟩

/-- C8: `getStartPoint` of a Move node is its own first control point;
`getStartPoint` of a Line, Quad, Cubic or Close node is the previous
sibling's end point; and `getEndPoint` of a Close node is the degenerate
zero point. -/
theorem element_start_end_points (siblings : List ValueTree) (i : Nat)
    (h : i < siblings.length) :
    (siblings[i].typeName = "Move" →
        getStartPoint siblings i = getControlPoint siblings[i] 0) ∧
    (∀ h0 : 0 < i,
        (siblings[i].typeName = "Line" ∨ siblings[i].typeName = "Quad" ∨
         siblings[i].typeName = "Cubic" ∨ siblings[i].typeName = "Close") →
        getStartPoint siblings i = getEndPoint siblings[i - 1]) ∧
    (siblings[i].typeName = "Close" → getEndPoint siblings[i] = RelativePoint.zero) := by
  have hD : siblings.getD i ValueTree.invalid = siblings[i] := by
    rw [List.getD_eq_getElem?_getD, List.getElem?_eq_getElem h]
    rfl
  refine ⟨?_, ?_, ?_⟩
  · intro hM
    unfold getStartPoint getStartPointOf
    rw [hD]
    simp [hM]
  · intro h0 hT
    have hlt : i - 1 < siblings.length := by omega
    have hD2 : siblings.getD (i - 1) ValueTree.invalid = siblings[i - 1] := by
      rw [List.getD_eq_getElem?_getD, List.getElem?_eq_getElem hlt]
      rfl
    have hne : (siblings[i].typeName == "Move") = false := by
      rcases hT with hT | hT | hT | hT <;> simp [hT]
    have hi0 : ¬ i = 0 := by omega
    unfold getStartPoint getStartPointOf getPreviousElement
    rw [hD, if_neg hi0, hD2]
    simp [hne]
  · intro hC
    simp [getEndPoint, hC]

/-- C7: `convertToCubic` turns a Line or Quad node into a Cubic whose two
interior control points are the 30% and 70% interpolations between the
resolved start and end points and whose last control point is the
original end point; and `convertToLine` (on Quad/Cubic), `convertToCubic`
and `convertToPathBreak` (on any non-Move node) leave the converted
node's resolved end point unchanged. -/
theorem segment_conversion_spec (res : Resolver) (prev e : ValueTree) :
    ((e.typeName = "Line" ∨ e.typeName = "Quad") →
        (convertToCubic res prev e).typeName = "Cubic" ∧
        getControlPoint (convertToCubic res prev e) 0 =
          RelativePoint.fromPt (ptAdd ((getStartPointOf prev e).resolve res)
            (ptScale (3/10) (ptSub ((getEndPoint e).resolve res)
                                   ((getStartPointOf prev e).resolve res)))) ∧
        getControlPoint (convertToCubic res prev e) 1 =
          RelativePoint.fromPt (ptAdd ((getStartPointOf prev e).resolve res)
            (ptScale (7/10) (ptSub ((getEndPoint e).resolve res)
                                   ((getStartPointOf prev e).resolve res)))) ∧
        getControlPoint (convertToCubic res prev e) 2 = getEndPoint e ∧
        (getEndPoint (convertToCubic res prev e)).resolve res =
          (getEndPoint e).resolve res) ∧
    ((e.typeName = "Quad" ∨ e.typeName = "Cubic") →
        (getEndPoint (convertToLine e)).resolve res = (getEndPoint e).resolve res) ∧
    (e.typeName ≠ "Move" →
        (getEndPoint (convertToPathBreak e)).resolve res =
          (getEndPoint e).resolve res) := by
  refine ⟨?_, ?_, ?_⟩
  · rintro (h | h) <;>
      (unfold convertToCubic; rw [h]; exact ⟨rfl, rfl, rfl, rfl, rfl⟩)
  · rintro (h | h) <;>
      (unfold convertToLine; rw [h]; rfl)
  · intro h
    have hne : (e.typeName == "Move") = false := beq_eq_false_iff_ne.mpr h
    unfold convertToPathBreak
    rw [hne]
    rfl

/-- Witness for C8 on the concrete segment list Move, Line, Close. -/
theorem element_start_end_points_witness :
    getStartPoint elemList 0 = getControlPoint elemList[0] 0 ∧
    getStartPoint elemList 1 = getEndPoint elemList[0] ∧
    getEndPoint elemList[2] = RelativePoint.zero :=
  ⟨(element_start_end_points elemList 0 (by decide)).1 rfl,
   (element_start_end_points elemList 1 (by decide)).2.1 (by decide) (Or.inl rfl),
   (element_start_end_points elemList 2 (by decide)).2.2 rfl⟩

/-- Witness for C7 on concrete Line and Quad elements following a Move. -/
theorem segment_conversion_spec_witness :
    ((convertToCubic trivRes prevE lineE).typeName = "Cubic" ∧
     getControlPoint (convertToCubic trivRes prevE lineE) 0 =
       RelativePoint.fromPt (ptAdd ((getStartPointOf prevE lineE).resolve trivRes)
         (ptScale (3/10) (ptSub ((getEndPoint lineE).resolve trivRes)
                                ((getStartPointOf prevE lineE).resolve trivRes)))) ∧
     getControlPoint (convertToCubic trivRes prevE lineE) 1 =
       RelativePoint.fromPt (ptAdd ((getStartPointOf prevE lineE).resolve trivRes)
         (ptScale (7/10) (ptSub ((getEndPoint lineE).resolve trivRes)
                                ((getStartPointOf prevE lineE).resolve trivRes)))) ∧
     getControlPoint (convertToCubic trivRes prevE lineE) 2 = getEndPoint lineE ∧
     (getEndPoint (convertToCubic trivRes prevE lineE)).resolve trivRes =
       (getEndPoint lineE).resolve trivRes) ∧
    ((getEndPoint (convertToLine quadE)).resolve trivRes =
       (getEndPoint quadE).resolve trivRes) ∧
    ((getEndPoint (convertToPathBreak lineE)).resolve trivRes =
       (getEndPoint lineE).resolve trivRes) :=
  ⟨(segment_conversion_spec trivRes prevE lineE).1 (Or.inl rfl),
   (segment_conversion_spec trivRes prevE quadE).2.1 (Or.inl rfl),
   (segment_conversion_spec trivRes prevE lineE).2.2 (by decide)⟩

/-- C1 counterexample: on a fresh dynamic drawable path (dirty path and
dirty stroke, relative path owned), the first `getStrokePath` call
regenerates the stroke once and the second consecutive call regenerates
it again, so two consecutive calls regenerate twice in total and the
second call does perform a recomputation. -/
theorem strokeRecompute_counterexample :
    (getStrokePathN trivGeo dynState trivRes).2.2 = 1 ∧
    (getStrokePathN trivGeo (getStrokePathN trivGeo dynState trivRes).2.1 trivRes).2.2 = 1 ∧
    ¬ ((getStrokePathN trivGeo dynState trivRes).2.2 +
       (getStrokePathN trivGeo (getStrokePathN trivGeo dynState trivRes).2.1 trivRes).2.2
         ≤ 1) := by
  refine ⟨rfl, rfl, by decide⟩

/-- C1 (amended): two consecutive `getStrokePath` calls with no
intervening mutation regenerate the stroke outline at most once in total
unless at the first call the stroke was dirty, the path was dirty and the
path is dynamic; in that case the second call regenerates exactly once
more (because `updateStroke` clears its flag before `updatePath`
re-marks it), and a third consecutive call never regenerates. -/
theorem strokeRecompute_amended (g : GeoOps) (s : DrawablePathState) (res : Resolver) :
    (getStrokePathN g (getStrokePathN g s res).2.1 res).2.2 =
      (if s.strokeNeedsUpdating && s.pathNeedsUpdating && s.relativePath.isSome
       then 1 else 0) ∧
    (getStrokePathN g
        (getStrokePathN g (getStrokePathN g s res).2.1 res).2.1 res).2.2 = 0 ∧
    ((s.strokeNeedsUpdating && s.pathNeedsUpdating && s.relativePath.isSome) = false →
       (getStrokePathN g s res).2.2 +
       (getStrokePathN g (getStrokePathN g s res).2.1 res).2.2 ≤ 1) := by
  obtain ⟨nm, mf, sf, st, p, sk, rp, pnu, snu⟩ := s
  cases snu <;> cases pnu <;> cases rp <;>
    simp [getStrokePathN, updateStrokeN, updatePath]

/-- Witness for the amended C1 theorem: a fresh static drawable path is
not in the dynamic-and-dirty case, and its two consecutive
`getStrokePath` calls regenerate the stroke at most once in total. -/
theorem strokeRecompute_amended_witness :
    (DrawablePathState.init.strokeNeedsUpdating &&
     DrawablePathState.init.pathNeedsUpdating &&
     DrawablePathState.init.relativePath.isSome) = false ∧
    ((getStrokePathN trivGeo DrawablePathState.init trivRes).2.2 +
     (getStrokePathN trivGeo
        (getStrokePathN trivGeo DrawablePathState.init trivRes).2.1 trivRes).2.2 ≤ 1) :=
  ⟨by decide, (strokeRecompute_amended trivGeo DrawablePathState.init trivRes).2.2 (by decide)⟩

/-- C4 counterexample: on a drawable path that owns a relative path and
has a pending path rebuild, `setPath` is overridden by the rebuild — the
following `getPath` returns the relative path's resolution, not the path
just supplied. -/
theorem setPath_dynamicPending_counterexample :
    (getPathQ (setPath dynState [PathSeg.move (5, 5)]) trivRes).1 ≠
      [PathSeg.move (5, 5)] := by
  have h : (getPathQ (setPath dynState [PathSeg.move (5, 5)]) trivRes).1 =
      [PathSeg.move (0 + 0, 0)] := rfl
  rw [h]
  intro hEq
  rw [List.cons.injEq, PathSeg.move.injEq, Prod.mk.injEq] at hEq
  have h5 : (0 : ℚ) + 0 = 5 := hEq.1.1
  norm_num at h5

/-- C4 (amended): after `setStrokeThickness t`, `getPath` returns
unchanged geometry and `getStrokePath` is regenerated with thickness `t`
and the previous joint and cap styles; after `setPath p`, both `getPath`
and `getStrokePath` reflect `p` provided the object is not both dynamic
and pending a path rebuild (in that remaining case the rebuild from the
relative path overwrites `p`). -/
theorem setters_cache_amended (g : GeoOps) (s : DrawablePathState) (res : Resolver)
    (t : ℚ) (p : Path) :
    (getPathQ (setStrokeThickness s t) res).1 = (getPathQ s res).1 ∧
    (getStrokePathN g (setStrokeThickness s t) res).1 =
      g.strokeGen ⟨t, s.strokeType.joint, s.strokeType.cap⟩
        ((getPathQ (setStrokeThickness s t) res).1) AffineTransform.identity 4 ∧
    (¬ (s.relativePath.isSome = true ∧ s.pathNeedsUpdating = true) →
       (getPathQ (setPath s p) res).1 = p ∧
       (getStrokePathN g (setPath s p) res).1 =
         g.strokeGen s.strokeType p AffineTransform.identity 4) := by
  obtain ⟨nm, mf, sf, st, pth, sk, rp, pnu, snu⟩ := s
  cases pnu <;> cases rp <;>
    simp [getPathQ, getStrokePathN, setStrokeThickness, setStrokeType, setPath,
          updateStrokeN, updatePath]

/-- Witness for the amended C4 theorem: on a fresh static drawable path,
`setPath` followed by `getPath` returns the supplied path, and
`getStrokePath` is the stroke of that path. -/
theorem setters_cache_amended_witness :
    ¬ (DrawablePathState.init.relativePath.isSome = true ∧
       DrawablePathState.init.pathNeedsUpdating = true) ∧
    ((getPathQ (setPath DrawablePathState.init [PathSeg.move (1, 2)]) trivRes).1 =
       [PathSeg.move (1, 2)] ∧
     (getStrokePathN boxGeo (setPath DrawablePathState.init [PathSeg.move (1, 2)])
        trivRes).1 =
       boxGeo.strokeGen DrawablePathState.init.strokeType [PathSeg.move (1, 2)]
         AffineTransform.identity 4) :=
  ⟨by decide,
   (setters_cache_amended boxGeo DrawablePathState.init trivRes 2
      [PathSeg.move (1, 2)]).2.2 (by decide)⟩

theorem ite_state_proj {α : Type} (f : DrawablePathState → α) (c : Prop) [Decidable c]
    (r1 r2 : Rect × DrawablePathState) {v : α}
    (h1 : f r1.2 = v) (h2 : f r2.2 = v) : f (if c then r1 else r2).2 = v := by
  split <;> assumption

theorem strokeQuery_after_pathQuery (g : GeoOps) (s : DrawablePathState) (res : Resolver)
    (hInv : s.pathNeedsUpdating = true → s.strokeNeedsUpdating = true) :
    (updateStroke g (updatePath s res) res).stroke = (updateStroke g s res).stroke := by
  obtain ⟨nm, mf, sf, st, p, sk, rp, pnu, snu⟩ := s
  cases snu
  · cases pnu
    · rfl
    · exact absurd (hInv rfl) (by simp)
  · cases pnu <;> cases rp <;> rfl

theorem refresh_snd_relativePath (g : GeoOps) (s : DrawablePathState) (t : ValueTree)
    (res : Resolver) :
    ((refreshFromValueTree g s t res).2).relativePath =
      (if (RelativePointPath.fromTree t).containsAnyDynamicPoints
       then some (RelativePointPath.fromTree t) else none) := by
  simp only [refreshFromValueTree]
  refine ite_state_proj DrawablePathState.relativePath _ _ _ rfl ?_
  rw [getBounds_snd_relativePath]

/-- C5: after every `refreshFromValueTree` call, the relative path is
present exactly when the geometry decoded from the tree contains at least
one dynamic control point — an all-constant decoded relative path is
discarded even if the tree still encodes relative expressions
syntactically. -/
theorem relativePath_iff_dynamic (g : GeoOps) (s : DrawablePathState) (t : ValueTree)
    (res : Resolver) :
    ((refreshFromValueTree g s t res).2).relativePath =
      (if (RelativePointPath.fromTree t).containsAnyDynamicPoints
       then some (RelativePointPath.fromTree t) else none) ∧
    ((refreshFromValueTree g s t res).2).relativePath.isSome =
      (RelativePointPath.fromTree t).containsAnyDynamicPoints := by
  refine ⟨refresh_snd_relativePath g s t res, ?_⟩
  rw [refresh_snd_relativePath g s t res]
  cases (RelativePointPath.fromTree t).containsAnyDynamicPoints <;> simp

/-- C6: when the stroke thickness is zero or the stroke fill is fully
transparent, the stroke is not visible, `getBounds` equals exactly the
fill outline's bounds and `hitTest` holds only inside the fill outline;
when the stroke is visible, `getBounds` is the stroke outline's bounds
and `hitTest` holds exactly on points inside the fill outline or the
stroke outline.  The dirty-flag hypothesis is the data-model invariant
(a dirty path implies a dirty stroke). -/
theorem strokeVisibility_gating (g : GeoOps) (s : DrawablePathState) (res : Resolver)
    (x y : ℚ) (hInv : s.pathNeedsUpdating = true → s.strokeNeedsUpdating = true) :
    ((s.strokeType.thickness = 0 ∨ s.strokeFill.isInvisible = true) →
        isStrokeVisible s = false ∧
        (getBounds g s res).1 = g.boundsOf (getPathQ s res).1 ∧
        ((hitTest g s res x y).1 = true →
          g.containsPt (getPathQ s res).1 x y = true)) ∧
    (isStrokeVisible s = true →
        (getBounds g s res).1 = g.boundsOf (getStrokePathQ g s res).1 ∧
        ((hitTest g s res x y).1 = true ↔
          (g.containsPt (getPathQ s res).1 x y = true ∨
           g.containsPt (getStrokePathQ g s res).1 x y = true))) := by
  have hq2 : (getPathQ s res).2 = updatePath s res := rfl
  constructor
  · intro hz
    have hv : isStrokeVisible s = false := by
      unfold isStrokeVisible
      rcases hz with hz | hz
      · rw [hz]; simp
      · rw [hz]; simp
    have hvne : ¬ isStrokeVisible s = true := by rw [hv]; simp
    refine ⟨hv, ?_, ?_⟩
    · unfold getBounds
      rw [if_neg hvne]
    · simp only [hitTest]
      have hv2 : ¬ isStrokeVisible (getPathQ s res).2 = true := by
        rw [hq2, isStrokeVisible_updatePath]
        exact hvne
      cases hc : g.containsPt (getPathQ s res).1 x y
      · rw [if_neg (by simp), if_neg hv2]
        intro hfalse
        exact hfalse
      · intro _
        rfl
  · intro hv
    refine ⟨?_, ?_⟩
    · unfold getBounds
      rw [if_pos hv]
    · simp only [hitTest]
      have hv2 : isStrokeVisible (getPathQ s res).2 = true := by
        rw [hq2, isStrokeVisible_updatePath]
        exact hv
      have hstk : (getStrokePathQ g (getPathQ s res).2 res).1 =
          (getStrokePathQ g s res).1 := by
        rw [hq2]
        exact strokeQuery_after_pathQuery g s res hInv
      cases hc : g.containsPt (getPathQ s res).1 x y
      · rw [if_neg (by simp), if_pos hv2, hstk]
        simp
      · simp

/-- Witness for C6: on a fresh drawable path the stroke is invisible and
the bounds are the fill outline's bounds; on a visible-stroke state the
bounds are the stroke outline's bounds and the hit test is the
disjunction of the two containment tests. -/
theorem strokeVisibility_gating_witness :
    (isStrokeVisible DrawablePathState.init = false ∧
     (getBounds boxGeo DrawablePathState.init trivRes).1 =
       boxGeo.boundsOf (getPathQ DrawablePathState.init trivRes).1 ∧
     ((hitTest boxGeo DrawablePathState.init trivRes 0 0).1 = true →
        boxGeo.containsPt (getPathQ DrawablePathState.init trivRes).1 0 0 = true)) ∧
    ((getBounds boxGeo visState trivRes).1 =
       boxGeo.boundsOf (getStrokePathQ boxGeo visState trivRes).1 ∧
     ((hitTest boxGeo visState trivRes 0 0).1 = true ↔
        (boxGeo.containsPt (getPathQ visState trivRes).1 0 0 = true ∨
         boxGeo.containsPt (getStrokePathQ boxGeo visState trivRes).1 0 0 = true))) :=
  ⟨(strokeVisibility_gating boxGeo DrawablePathState.init trivRes 0 0
      (fun _ => rfl)).1 (Or.inl rfl),
   (strokeVisibility_gating boxGeo visState trivRes 0 0
      (fun _ => rfl)).2 (by decide)⟩

theorem toCmd_toTree (c : PathCmd) : ValueTree.toCmd (PathCmd.toTree c) = some c := by
  cases c <;> rfl

theorem filterMap_toCmd_map_toTree (l : List PathCmd) :
    List.filterMap ValueTree.toCmd (l.map PathCmd.toTree) = l := by
  induction l with
  | nil => rfl
  | cons c l ih => simp [List.filterMap_cons, toCmd_toTree, ih]

theorem toSeg_toCmd (res : Resolver) (a : PathSeg) :
    PathCmd.toSeg res a.toCmd = a := by
  cases a <;> rfl

theorem createPath_fromPath (p : Path) (res : Resolver) :
    (RelativePointPath.fromPath p).createPath res = p := by
  induction p with
  | nil => rfl
  | cons a l ih =>
      show PathCmd.toSeg res a.toCmd :: (RelativePointPath.fromPath l).createPath res = a :: l
      rw [toSeg_toCmd, ih]

theorem toCmd_not_dynamic (a : PathSeg) : PathCmd.isAnyDynamic a.toCmd = false := by
  cases a <;> rfl

theorem fromPath_not_dynamic (p : Path) :
    (RelativePointPath.fromPath p).containsAnyDynamicPoints = false := by
  induction p with
  | nil => rfl
  | cons a l ih =>
      show (PathCmd.isAnyDynamic a.toCmd ||
        (RelativePointPath.fromPath l).containsAnyDynamicPoints) = false
      rw [toCmd_not_dynamic, ih]
      rfl

theorem fromTree_createValueTree (s : DrawablePathState) (h : s.relativePath = none) :
    RelativePointPath.fromTree (createValueTree s) = RelativePointPath.fromPath s.path := by
  unfold createValueTree
  rw [h]
  show RelativePointPath.mk
      (List.filterMap ValueTree.toCmd
        (List.map PathCmd.toTree (RelativePointPath.fromPath s.path).commands)) true =
    RelativePointPath.fromPath s.path
  rw [show (RelativePointPath.fromPath s.path).commands = s.path.map PathSeg.toCmd from rfl,
      filterMap_toCmd_map_toTree]
  rfl

theorem refresh_snd_path (g : GeoOps) (s : DrawablePathState) (t : ValueTree)
    (res : Resolver)
    (hdyn : (RelativePointPath.fromTree t).containsAnyDynamicPoints = false) :
    ((refreshFromValueTree g s t res).2).path =
      (RelativePointPath.fromTree t).createPath res := by
  simp only [refreshFromValueTree]
  refine ite_state_proj DrawablePathState.path _ _ _ ?_ ?_
  · simp only [apply_ite DrawablePathState.path, apply_ite DrawablePathState.strokeType,
      ite_self]
    split
    · rename_i hgeom
      exact hgeom.2
    · rfl
  · refine Eq.trans (getBounds_snd_path_of_relNone g _ res ?_) ?_
    · show DrawablePathState.relativePath _ = none
      simp [hdyn]
    · simp only [apply_ite DrawablePathState.path, apply_ite DrawablePathState.strokeType,
        ite_self]
      split
      · rename_i hgeom
        exact hgeom.2
      · rfl

/-- C2: for a drawable path whose geometry is all-constant (no owned
relative path), `createValueTree` followed by `refreshFromValueTree` on a
fresh drawable path reproduces the concrete path exactly (hence within
any floating tolerance) and leaves the new object's relative path
empty. -/
theorem roundTrip_static (g : GeoOps) (s : DrawablePathState) (res : Resolver)
    (h : s.relativePath = none) :
    ((refreshFromValueTree g DrawablePathState.init (createValueTree s) res).2).path
      = s.path ∧
    ((refreshFromValueTree g DrawablePathState.init (createValueTree s) res).2).relativePath
      = none := by
  have hfrom := fromTree_createValueTree s h
  have hdyn : (RelativePointPath.fromTree (createValueTree s)).containsAnyDynamicPoints
      = false := by
    rw [hfrom]
    exact fromPath_not_dynamic s.path
  constructor
  · rw [refresh_snd_path g DrawablePathState.init (createValueTree s) res hdyn,
        hfrom, createPath_fromPath]
  · rw [refresh_snd_relativePath g DrawablePathState.init (createValueTree s) res, hdyn]
    simp

/-- Witness for C2 at a concrete two-segment static drawable path. -/
theorem roundTrip_static_witness :
    rtState.relativePath = none ∧
    ((refreshFromValueTree trivGeo DrawablePathState.init (createValueTree rtState)
        trivRes).2).path = rtState.path ∧
    ((refreshFromValueTree trivGeo DrawablePathState.init (createValueTree rtState)
        trivRes).2).relativePath = none :=
  ⟨rfl, (roundTrip_static trivGeo rtState trivRes rfl).1,
    (roundTrip_static trivGeo rtState trivRes rfl).2⟩

/-- C3: reconciling a tree that differs from the current state only in
the main fill or stroke fill value (same decoded stroke descriptor, same
resolved concrete path) returns a damage rectangle equal to the bounds of
the object after the change — not the union of old and new bounds. -/
theorem fillOnly_damage_eq_current_bounds (g : GeoOps) (s : DrawablePathState)
    (t : ValueTree) (res : Resolver)
    (hstroke : getStrokeTypeFT t = s.strokeType)
    (hpath : (RelativePointPath.fromTree t).createPath res = s.path)
    (hfill : getMainFillT t ≠ s.mainFill ∨ getStrokeFillT t ≠ s.strokeFill) :
    (refreshFromValueTree g s t res).1 =
      (getBounds g (refreshFromValueTree g s t res).2 res).1 := by
  have hgeom : s.strokeType = getStrokeTypeFT t ∧
      s.path = (RelativePointPath.fromTree t).createPath res :=
    ⟨hstroke.symm, hpath.symm⟩
  have hcond : ¬ (s.mainFill = getMainFillT t ∧ s.strokeFill = getStrokeFillT t ∧
      (s.strokeType = getStrokeTypeFT t ∧
       s.path = (RelativePointPath.fromTree t).createPath res)) := by
    rcases hfill with hf | hf
    · exact fun hall => hf hall.1.symm
    · exact fun hall => hf hall.2.1.symm
  simp only [refreshFromValueTree, apply_ite DrawablePathState.strokeFill,
    apply_ite DrawablePathState.strokeType, apply_ite DrawablePathState.path,
    ite_self, if_pos hgeom, if_neg hcond]
  rw [rect_empty_getUnion]
  exact (getBounds_fst_stable g _ res).symm

/-- Witness for C3: a tree differing from a concrete state only in the
main fill yields a damage rectangle equal to the post-change bounds. -/
theorem fillOnly_damage_witness :
    getStrokeTypeFT fillOnlyTree = rtState.strokeType ∧
    (refreshFromValueTree boxGeo rtState fillOnlyTree trivRes).1 =
      (getBounds boxGeo (refreshFromValueTree boxGeo rtState fillOnlyTree trivRes).2
        trivRes).1 :=
  ⟨by decide,
   fillOnly_damage_eq_current_bounds boxGeo rtState fillOnlyTree trivRes
     (by decide) (by decide) (Or.inl (by decide))⟩

end Juce
